import Mathlib

/-!
Verification development for the `p2panda-net` networking runtime, a shallow
embedding of `src/p2panda-net/src/network.rs`: the network builder (endpoint
binding, core protocol registration, the startup wait for a direct address,
adding configured direct peer addresses), the supervisor event loop spawned by
`NetworkInner::spawn` (biased select over shutdown, inbound connections,
discovery events and child-task completions), inbound connection dispatch by
ALPN (`handle_connection`), `Network::shutdown` and `Network::subscribe`.

Pure data is translated directly; effectful code is embedded as explicit
functions from the outcomes of its awaited operations (accept results, stream
items, join results) to the resulting control-flow decision, emitted log
entries and produced values. Machine integers are `Nat` with an explicit
`% 2 ^ 16` where `u16` overflow matters. Components of the repository whose
code is outside the translated sources (the connection router protocol map in
`crate::protocols`, the sync handler of `crate::engine`) are modelled from
the specification and marked as such in their doc comments.
-/

namespace P2PandaNet

/-- Byte sequences (`Vec<u8>` and friends). -/
abbrev Bytes := List Nat

/-- A 32-byte public key identifying a peer (`PublicKey` / `NodeId`). -/
structure PublicKey where
  bytes : Bytes
  deriving DecidableEq

/-- URL of a relay node (`RelayUrl`). -/
structure RelayUrl where
  url : String
  deriving DecidableEq

/-- A socket address (`SocketAddr`): host plus port. -/
structure SocketAddr where
  host : String
  port : Nat
  deriving DecidableEq

/-- `iroh_net::NodeAddr`: a node id with direct addresses and an optional
relay url. -/
structure NodeAddr where
  node_id : PublicKey
  direct_addresses : List SocketAddr
  relay_url : Option RelayUrl
  deriving DecidableEq

/-- Severity of an emitted tracing event (`debug!`, `warn!`, `error!`). -/
inductive LogLevel where
  | debug
  | warn
  | error
  deriving DecidableEq

/-- One emitted tracing event: severity and the static part of the message. -/
structure LogEntry where
  level : LogLevel
  message : String
  deriving DecidableEq

/-- An ALPN protocol identifier (`&[u8]` in the source; identity is all that
matters here). -/
abbrev Alpn := String

/-- Modelled from the spec: a protocol handler registered with the connection
router (`ProtocolHandler` of `crate::protocols`, whose code is not among the
translated sources; spec section 4.6). Only its identity is needed. -/
structure ProtocolHandler where
  name : String
  deriving DecidableEq

/-- Modelled from the spec: the connection router map from ALPN to handler
(`ProtocolMap` of `crate::protocols`, not among the translated sources; the
spec says the router owns a map from ALPN to `ProtocolHandler`). Embedded as
an association list with map semantics. -/
abbrev ProtocolMap := List (Alpn × ProtocolHandler)

/-- Lookup in the protocol map (`ProtocolMap::get`). -/
def pmGet : ProtocolMap → Alpn → Option ProtocolHandler
  | [], _ => none
  | (k, v) :: rest, alpn => if k = alpn then some v else pmGet rest alpn

/-- Insert into the protocol map (`ProtocolMap::insert`): replaces any
existing entry for the same ALPN. -/
def pmInsert : ProtocolMap → Alpn → ProtocolHandler → ProtocolMap
  | [], alpn, h => [(alpn, h)]
  | (k, v) :: rest, alpn, h =>
    if k = alpn then (alpn, h) :: rest else (k, v) :: pmInsert rest alpn h

/-- The list of registered ALPN identifiers (`ProtocolMap::alpns`), installed
on the endpoint via `set_alpns`. -/
def pmAlpns (m : ProtocolMap) : List Alpn :=
  m.map (fun p => p.1)

/-- The gossip ALPN (`GOSSIP_ALPN` from `iroh_gossip`, an external crate; the
exact bytes are immaterial here, only its identity and its distinctness from
the sync ALPN are used). -/
def GOSSIP_ALPN : Alpn := "/iroh-gossip/0"

/-- Modelled from the spec: the sync connection ALPN (`SYNC_CONNECTION_ALPN`
of `crate::sync`, not among the translated sources). Exact bytes immaterial;
only identity and distinctness from the gossip ALPN are used. -/
def SYNC_CONNECTION_ALPN : Alpn := "/p2panda-net-sync/0"

/-- Sync protocol configuration (`SyncConfiguration`): carries the chosen
protocol. -/
structure SyncConfiguration where
  protocolName : String
  deriving DecidableEq

/-- Modelled from the spec: `Engine::sync_handler` (in `crate::engine`, not
among the translated sources) yields a sync connection handler exactly when a
sync protocol was configured; the builder doc in `network.rs` states that a
sync handler is also instantiated if a sync protocol is provided. -/
def syncHandlerOf (syncConfig : Option SyncConfiguration) : Option ProtocolHandler :=
  syncConfig.map (fun cfg => ⟨cfg.protocolName⟩)

/-- Result of the protocol registration phase of `NetworkBuilder::build`
(network.rs lines 405 to 415): the final protocol map, and the ALPN list that
is computed from it and then installed on the endpoint with `set_alpns`. -/
structure RegistrationResult where
  protocols : ProtocolMap
  alpns : List Alpn

/-- The protocol registration phase of `NetworkBuilder::build`: the gossip
handler is inserted under `GOSSIP_ALPN`; if the engine produced a sync
handler it is inserted under `SYNC_CONNECTION_ALPN`; the ALPN list is then
read off the resulting map. -/
def registerCoreProtocols (userProtocols : ProtocolMap)
    (gossipHandler : ProtocolHandler) (syncConfig : Option SyncConfiguration) :
    RegistrationResult :=
  let ps1 := pmInsert userProtocols GOSSIP_ALPN gossipHandler
  let ps2 :=
    match syncHandlerOf syncConfig with
    | some h => pmInsert ps1 SYNC_CONNECTION_ALPN h
    | none => ps1
  ⟨ps2, pmAlpns ps2⟩

/-- Outcome of `handle_connection` (network.rs lines 749 to 767): whether a
protocol handler was invoked on the connection and what was logged. -/
structure ConnectionOutcome where
  handlerInvoked : Bool
  logs : List LogEntry
  deriving DecidableEq

/-- `handle_connection`: ALPN negotiation (`connecting.alpn().await`) either
fails or yields an ALPN; the handler is looked up in the protocol map; a
found handler accepts the connection and its error, if any, is logged. The
function always returns (the connection is simply dropped in the failure
cases). `acceptResult` stands for the outcome of `handler.accept(connecting)`. -/
def handle_connection (alpnResult : Except String Alpn) (protocols : ProtocolMap)
    (acceptResult : ProtocolHandler → Except String Unit) : ConnectionOutcome :=
  match alpnResult with
  | Except.error _ =>
    ⟨false, [⟨LogLevel.warn, "ignoring connection: invalid handshake"⟩]⟩
  | Except.ok alpn =>
    match pmGet protocols alpn with
    | none =>
      ⟨false, [⟨LogLevel.warn, "ignoring connection: unsupported alpn protocol"⟩]⟩
    | some handler =>
      match acceptResult handler with
      | Except.error _ =>
        ⟨true, [⟨LogLevel.warn, "handling incoming connection ended with error"⟩]⟩
      | Except.ok _ => ⟨true, []⟩

/-- An item of the discovery stream obtained from
`self.discovery.subscribe(self.network_id)`: a discovered peer
(`Ok(event)`, carrying a node address) or a provider-level error. -/
inductive DiscoveryEvent where
  | ok (node_addr : NodeAddr)
  | err (msg : String)
  deriving DecidableEq

/-- Classification of a `tokio::task::JoinError` as the supervisor reads it:
`is_panic()`, `is_cancelled()`, or neither. -/
inductive JoinError where
  | panicked
  | cancelled
  | other
  deriving DecidableEq

/-- What `join_set.join_next()` resolved with inside the supervisor loop:
`Some(Err(outer))` (a join error), `Some(Ok(Err(inner)))` (the child task ran
to completion with an ordinary error), `Some(Ok(Ok(())))`, or `None`. -/
inductive JoinNextResult where
  | joinFailed (e : JoinError)
  | taskReturnedErr (msg : String)
  | taskReturnedOk
  | noTask
  deriving DecidableEq

/-- What one round of the biased `tokio::select!` in `NetworkInner::spawn`
(network.rs lines 537 to 600) resolved with: whether the cancellation token
fired, and for each other branch, `some` when that branch produced an item
(`incoming` holds the result of `incoming.accept()`; `joinNext` is `some`
only when the join set was nonempty and yielded). `none` means the branch
produced nothing this round (it is not selected). -/
structure SelectSources where
  cancelled : Bool
  incoming : Option (Except String Unit)
  discoveryEvent : Option DiscoveryEvent
  joinNext : Option JoinNextResult

/-- Whether an iteration of the supervisor loop continues or breaks. -/
inductive StepOutcome where
  | continueLoop
  | breakLoop
  deriving DecidableEq

/-- Effect of one iteration of the supervisor loop: control flow, emitted log
entries, whether a `handle_connection` child task was spawned, and whether
`engine.add_peer` was invoked. -/
structure StepResult where
  outcome : StepOutcome
  logs : List LogEntry
  spawnedConnectionTask : Bool
  addPeerCalled : Bool

/-- The inbound connection branch of the supervisor loop: a failed
`incoming.accept()` is logged and the loop continues; a successful one spawns
`handle_connection` as a child task. -/
def handleIncomingConnection (accepted : Except String Unit) : StepResult :=
  match accepted with
  | Except.error _ =>
    ⟨StepOutcome.continueLoop, [⟨LogLevel.warn, "incoming connection failed"⟩], false, false⟩
  | Except.ok _ => ⟨StepOutcome.continueLoop, [], true, false⟩

/-- The discovery branch of the supervisor loop (network.rs lines 563 to
577): an `Ok` event is passed to `engine.add_peer` (a failure there is
logged and breaks the loop); an `Err` event is logged with `error!` and
breaks the loop. -/
def handleDiscoveryEvent (event : DiscoveryEvent) (addPeerOk : Bool) : StepResult :=
  match event with
  | DiscoveryEvent.ok _ =>
    if addPeerOk then ⟨StepOutcome.continueLoop, [], false, true⟩
    else ⟨StepOutcome.breakLoop, [⟨LogLevel.error, "engine failed on add_peer"⟩], false, true⟩
  | DiscoveryEvent.err _ =>
    ⟨StepOutcome.breakLoop, [⟨LogLevel.error, "discovery service failed"⟩], false, false⟩

/-- The child-task completion branch of the supervisor loop (network.rs
lines 578 to 597): a panicking child breaks the loop, a cancelled child is
logged at debug level, any other join error breaks the loop, a child that
completed with an ordinary error is logged at debug level and the loop
continues, and the remaining cases are ignored. -/
def handleJoinNext (res : JoinNextResult) : StepResult :=
  match res with
  | JoinNextResult.joinFailed JoinError.panicked =>
    ⟨StepOutcome.breakLoop, [⟨LogLevel.error, "task panicked"⟩], false, false⟩
  | JoinNextResult.joinFailed JoinError.cancelled =>
    ⟨StepOutcome.continueLoop, [⟨LogLevel.debug, "task cancelled"⟩], false, false⟩
  | JoinNextResult.joinFailed JoinError.other =>
    ⟨StepOutcome.breakLoop, [⟨LogLevel.error, "task failed"⟩], false, false⟩
  | JoinNextResult.taskReturnedErr _ =>
    ⟨StepOutcome.continueLoop, [⟨LogLevel.debug, "task errored"⟩], false, false⟩
  | JoinNextResult.taskReturnedOk => ⟨StepOutcome.continueLoop, [], false, false⟩
  | JoinNextResult.noTask => ⟨StepOutcome.continueLoop, [], false, false⟩

/-- One iteration of the biased select in the supervisor loop. `biased;`
makes tokio poll the branches strictly top to bottom: cancellation first,
then inbound connections, then discovery events, then child-task
completions; if no branch produced anything the `else` arm breaks. -/
def superviseStep (s : SelectSources) (addPeerOk : Bool) : StepResult :=
  if s.cancelled then ⟨StepOutcome.breakLoop, [], false, false⟩
  else
    match s.incoming, s.discoveryEvent, s.joinNext with
    | some accepted, _, _ => handleIncomingConnection accepted
    | none, some event, _ => handleDiscoveryEvent event addPeerOk
    | none, none, some res => handleJoinNext res
    | none, none, none => ⟨StepOutcome.breakLoop, [], false, false⟩

/-- The supervisor loop over a sequence of select rounds, each given as the
sources it resolved with together with whether `engine.add_peer` would
succeed that round. Returns the accumulated log entries and whether the loop
exited within the given rounds; whenever the loop exits, `NetworkInner::spawn`
proceeds to `self.shutdown(protocols)` (network.rs line 602). -/
def superviseLoop : List (SelectSources × Bool) → List LogEntry × Bool
  | [] => ([], false)
  | (s, addPeerOk) :: rest =>
    match (superviseStep s addPeerOk).outcome with
    | StepOutcome.breakLoop => ((superviseStep s addPeerOk).logs, true)
    | StepOutcome.continueLoop =>
      ((superviseStep s addPeerOk).logs ++ (superviseLoop rest).1, (superviseLoop rest).2)

/-- `DIRECT_ADDRESSES_WAIT` (network.rs lines 153 to 154): timeout in seconds
for receiving at least one direct address of the local endpoint. -/
def DIRECT_ADDRESSES_WAIT : Nat := 5

/-- The `wait_for_endpoints` future of `NetworkBuilder::build` (network.rs
lines 434 to 442): `timeoutResult` is what
`tokio::time::timeout(DIRECT_ADDRESSES_WAIT, endpoint.direct_addresses().next())`
resolved with; `none` is the elapsed timeout, `some none` the end of the
direct address stream, `some (some update)` the first update. The two error
messages are the `context` strings attached in the source. -/
def wait_for_endpoints (timeoutResult : Option (Option (List SocketAddr))) :
    Except String Unit :=
  match timeoutResult with
  | none => Except.error ("waiting for endpoint")
  | some none =>
    Except.error ("no endpoints given to establish at least one connection")
  | some (some _) => Except.ok ()

/-- The relay fallback applied to each configured direct node address
(network.rs lines 449 to 457): an address without relay information receives
the relay url of the own relay node, when one is configured; otherwise the
address is left unchanged. -/
def withRelayIfMissing (relay : Option RelayUrl) (addr : NodeAddr) : NodeAddr :=
  if addr.relay_url.isNone then
    match relay with
    | some url => { addr with relay_url := some url }
    | none => addr
  else addr

/-- The loop over `self.direct_node_addresses` at the end of
`NetworkBuilder::build` (network.rs lines 449 to 460): each address gets the
relay fallback applied and is passed to `network.add_peer`; an `add_peer`
error propagates out of `build`. Returns the addresses added, in order. -/
def addDirectPeers (addPeer : NodeAddr → Except String Unit) (relay : Option RelayUrl) :
    List NodeAddr → Except String (List NodeAddr)
  | [] => Except.ok []
  | addr :: rest =>
    match addPeer (withRelayIfMissing relay addr) with
    | Except.error e => Except.error e
    | Except.ok _ =>
      match addDirectPeers addPeer relay rest with
      | Except.error e => Except.error e
      | Except.ok added => Except.ok (withRelayIfMissing relay addr :: added)

/-- Outcome of the tail of `NetworkBuilder::build`: the result (on success,
the list of direct addresses that were passed to `add_peer`, standing for the
returned `Network`; on failure the error), and whether `network.shutdown()`
was called on the way out. -/
structure BuildOutcome where
  result : Except String (List NodeAddr)
  shutdownCalled : Bool

/-- The tail of `NetworkBuilder::build` (network.rs lines 432 to 462): await
the endpoint wait; on its failure shut the network down and return the error;
otherwise add every configured direct node address (with relay fallback) to
the engine and return the network. -/
def buildFinish (timeoutResult : Option (Option (List SocketAddr)))
    (relay : Option RelayUrl) (direct_node_addresses : List NodeAddr)
    (addPeer : NodeAddr → Except String Unit) : BuildOutcome :=
  match wait_for_endpoints timeoutResult with
  | Except.error e => ⟨Except.error e, true⟩
  | Except.ok _ => ⟨addDirectPeers addPeer relay direct_node_addresses, false⟩

/-- The endpoint socket binding of `NetworkBuilder::build` (network.rs lines
360 to 374): the IPv4 socket uses the configured bind port, or the default
when none was configured; the IPv6 socket uses `bind_port + 1` computed in
`u16`, embedded with wrapping semantics as addition modulo `2 ^ 16` (under
debug assertions the overflowing addition would instead abort the build).
Returns the pair of the IPv4 port and the IPv6 port. -/
def bindPorts (defaultBindPort : Nat) (bindPort : Option Nat) : Nat × Nat :=
  (bindPort.getD defaultBindPort, (bindPort.getD defaultBindPort + 1) % 65536)

/-- `Network::shutdown` (network.rs lines 690 to 699): cancel the supervisor
cancellation token, await the supervisor task, map a join error of the task
into the returned error and otherwise return unit. `taskJoin` is what
awaiting the shared task handle resolved with. The first component records
that the cancellation token was triggered before the task was awaited. -/
def networkShutdown (taskJoin : Except String Unit) : Bool × Except String Unit :=
  (true,
    match taskJoin with
    | Except.error e => Except.error e
    | Except.ok _ => Except.ok ())

/-- An event to be broadcast to the network (`ToNetwork`). -/
inductive ToNetwork where
  | message (bytes : Bytes)

/-- An event received from the network (`FromNetwork`). -/
inductive FromNetwork where
  | gossipMessage (bytes : Bytes) (delivered_from : PublicKey)
  | syncMessage (header : Bytes) (payload : Option Bytes) (delivered_from : PublicKey)

/-- The sending half of a bounded `tokio::sync::mpsc` channel; `capacity` is
the bound the channel was created with. -/
structure Sender (α : Type) where
  capacity : Nat

/-- The receiving half of a bounded `tokio::sync::mpsc` channel. -/
structure Receiver (α : Type) where
  capacity : Nat

/-- `tokio::sync::mpsc::channel(buffer)`: both halves share the bound. -/
def mpsc_channel (α : Type) (buffer : Nat) : Sender α × Receiver α :=
  (⟨buffer⟩, ⟨buffer⟩)

/-- The arguments `Network::subscribe` passes on to `engine.subscribe`: the
topic, the sender of the `FromNetwork` channel and the receiver of the
`ToNetwork` channel (the oneshot ready channel carries no buffer bound). -/
structure EngineSubscribeCall (T : Type) where
  topic : T
  from_network_tx : Sender FromNetwork
  to_network_rx : Receiver ToNetwork

/-- `Network::subscribe` (network.rs lines 703 to 721): creates the
`ToNetwork` and `FromNetwork` channels, each bounded at 128, hands the engine
the `FromNetwork` sender and the `ToNetwork` receiver, and returns the
`ToNetwork` sender and the `FromNetwork` receiver to the caller. -/
def networkSubscribe {T : Type} (topic : T) :
    (Sender ToNetwork × Receiver FromNetwork) × EngineSubscribeCall T :=
  let to_network := mpsc_channel ToNetwork 128
  let from_network := mpsc_channel FromNetwork 128
  ((to_network.1, from_network.2), ⟨topic, from_network.1, to_network.2⟩)

/-- Inserting a key and looking it up yields the inserted handler. -/
theorem pmGet_insert_self (m : ProtocolMap) (alpn : Alpn) (h : ProtocolHandler) :
    pmGet (pmInsert m alpn h) alpn = some h := by
  induction m with
  | nil => simp [pmInsert, pmGet]
  | cons kv rest ih =>
    obtain ⟨k1, v1⟩ := kv
    by_cases hk : k1 = alpn
    · simp [pmInsert, pmGet, hk]
    · simp [pmInsert, pmGet, hk, ih]

/-- Inserting one key leaves lookups of a different key unchanged. -/
theorem pmGet_insert_ne (m : ProtocolMap) (alpn k : Alpn) (v : ProtocolHandler)
    (h : k ≠ alpn) :
    pmGet (pmInsert m alpn v) k = pmGet m k := by
  induction m with
  | nil => simp [pmInsert, pmGet, Ne.symm h]
  | cons kv rest ih =>
    obtain ⟨k1, v1⟩ := kv
    by_cases hk : k1 = alpn
    · subst hk
      simp [pmInsert, pmGet, Ne.symm h]
    · by_cases hk1 : k1 = k <;> simp [pmInsert, pmGet, hk, hk1, ih, h]

/-- A key present in the protocol map appears in the ALPN list read off it. -/
theorem pmGet_mem_alpns (k : Alpn) (v : ProtocolHandler) :
    ∀ m : ProtocolMap, pmGet m k = some v → k ∈ pmAlpns m
  | [], h => by simp [pmGet] at h
  | (k1, v1) :: rest, h => by
    by_cases hk : k1 = k
    · subst hk
      simp [pmAlpns]
    · have h2 : pmGet rest k = some v := by simpa [pmGet, hk] using h
      simpa [pmAlpns] using Or.inr (pmGet_mem_alpns k v rest h2)

/-- When every `add_peer` call succeeds, the direct address loop adds exactly
the configured addresses, each with the relay fallback applied, in order. -/
theorem addDirectPeers_ok (addPeer : NodeAddr → Except String Unit)
    (relay : Option RelayUrl) (h : ∀ a, addPeer a = Except.ok ())
    (addrs : List NodeAddr) :
    addDirectPeers addPeer relay addrs
      = Except.ok (addrs.map (withRelayIfMissing relay)) := by
  induction addrs with
  | nil => rfl
  | cons addr rest ih => simp [addDirectPeers, h, ih]

/-- C1 counterexample: with shutdown not signalled and no inbound connection,
a provider-level `Err` event on the discovery stream does NOT leave the loop
running: the very next thing the supervisor does is break out of the event
loop, and a subsequent round offering an inbound connection is never
serviced (the loop has exited after the first round, with only the discovery
failure logged). -/
theorem discovery_error_breaks_cex :
    ¬ ((superviseStep ⟨false, none, some (DiscoveryEvent.err ("mdns provider failed")), none⟩
          true).outcome = StepOutcome.continueLoop)
    ∧ (superviseLoop
        [(⟨false, none, some (DiscoveryEvent.err ("mdns provider failed")), none⟩, true),
         (⟨false, some (Except.ok ()), none, none⟩, true)]).2 = true
    ∧ (superviseLoop
        [(⟨false, none, some (DiscoveryEvent.err ("mdns provider failed")), none⟩, true),
         (⟨false, some (Except.ok ()), none, none⟩, true)]).1
      = [⟨LogLevel.error, "discovery service failed"⟩] := by
  refine ⟨by decide, rfl, rfl⟩

/-- C1 (amended): for every `Err` event yielded by the discovery stream in
the supervisor event loop, the error is logged at error level and the loop
breaks, terminating the event loop; no subsequent rounds are serviced, and
the supervisor proceeds to shutdown. -/
theorem discovery_error_terminates_loop (msg : String) (addPeerOk : Bool)
    (rest : List (SelectSources × Bool)) :
    (handleDiscoveryEvent (DiscoveryEvent.err msg) addPeerOk).outcome
      = StepOutcome.breakLoop
    ∧ (handleDiscoveryEvent (DiscoveryEvent.err msg) addPeerOk).logs
      = [⟨LogLevel.error, "discovery service failed"⟩]
    ∧ (superviseLoop ((⟨false, none, some (DiscoveryEvent.err msg), none⟩, addPeerOk) :: rest)).2
      = true
    ∧ (superviseLoop ((⟨false, none, some (DiscoveryEvent.err msg), none⟩, addPeerOk) :: rest)).1
      = [⟨LogLevel.error, "discovery service failed"⟩] :=
  ⟨rfl, rfl, rfl, rfl⟩

/-- C2: branch selection in the supervisor loop is strict top-to-bottom, not
fair. Whenever the cancellation token has fired, the iteration breaks without
servicing any other branch, spawning any task, logging anything or calling
`add_peer`, regardless of what the other branches offer; an available inbound
connection is serviced before a discovery event or a join result; a discovery
event is serviced before a join result; and when no sources remain the loop
exits. -/
theorem shutdown_priority_strict (incoming : Option (Except String Unit))
    (discoveryEvent : Option DiscoveryEvent) (joinNext : Option JoinNextResult)
    (accepted : Except String Unit) (event : DiscoveryEvent) (res : JoinNextResult)
    (addPeerOk : Bool) :
    superviseStep ⟨true, incoming, discoveryEvent, joinNext⟩ addPeerOk
      = ⟨StepOutcome.breakLoop, [], false, false⟩
    ∧ superviseStep ⟨false, some accepted, discoveryEvent, joinNext⟩ addPeerOk
      = handleIncomingConnection accepted
    ∧ superviseStep ⟨false, none, some event, joinNext⟩ addPeerOk
      = handleDiscoveryEvent event addPeerOk
    ∧ superviseStep ⟨false, none, none, some res⟩ addPeerOk
      = handleJoinNext res
    ∧ superviseStep ⟨false, none, none, none⟩ addPeerOk
      = ⟨StepOutcome.breakLoop, [], false, false⟩ :=
  ⟨rfl, rfl, rfl, rfl, rfl⟩

/-- C3: `build` fails when no local direct address appears within
`DIRECT_ADDRESSES_WAIT`, which is 5 seconds: when the wait for the first
direct address update times out, or the direct address stream ends, the
network is shut down and `build` returns an error carrying the corresponding
context message instead of a `Network`; when an update arrives, no shutdown
happens on this path. -/
theorem build_fails_without_direct_address (relay : Option RelayUrl)
    (addrs : List NodeAddr) (addPeer : NodeAddr → Except String Unit)
    (das : List SocketAddr) :
    DIRECT_ADDRESSES_WAIT = 5
    ∧ (buildFinish none relay addrs addPeer).shutdownCalled = true
    ∧ (buildFinish none relay addrs addPeer).result
      = Except.error ("waiting for endpoint")
    ∧ (buildFinish (some none) relay addrs addPeer).shutdownCalled = true
    ∧ (buildFinish (some none) relay addrs addPeer).result
      = Except.error ("no endpoints given to establish at least one connection")
    ∧ (buildFinish (some (some das)) relay addrs addPeer).shutdownCalled = false :=
  ⟨rfl, rfl, rfl, rfl, rfl, rfl⟩

/-- C4: an inbound connection whose ALPN negotiation fails, or whose
negotiated ALPN has no registered handler, is logged with a single warning
and dropped: `handle_connection` returns without invoking any protocol
handler (and, being a total function, without aborting), so the engine and
other connections are unaffected. -/
theorem unknown_alpn_connection_dropped (protocols : ProtocolMap)
    (acceptResult : ProtocolHandler → Except String Unit)
    (alpnResult : Except String Alpn)
    (h : (∃ e, alpnResult = Except.error e) ∨
         (∃ a, alpnResult = Except.ok a ∧ pmGet protocols a = none)) :
    (handle_connection alpnResult protocols acceptResult).handlerInvoked = false
    ∧ ∃ m, (handle_connection alpnResult protocols acceptResult).logs
        = [⟨LogLevel.warn, m⟩] := by
  rcases h with ⟨e, rfl⟩ | ⟨a, rfl, hget⟩
  · exact ⟨rfl, ⟨"ignoring connection: invalid handshake", rfl⟩⟩
  · constructor
    · simp [handle_connection, hget]
    · exact ⟨"ignoring connection: unsupported alpn protocol",
        by simp [handle_connection, hget]⟩

/-- C4 witness: a concrete inbound connection with a negotiated ALPN that has
no registered handler invokes no protocol handler. -/
theorem unknown_alpn_connection_dropped_witness :
    (handle_connection (Except.ok ("unregistered/alpn")) []
      (fun _ => Except.ok ())).handlerInvoked = false :=
  (unknown_alpn_connection_dropped [] (fun _ => Except.ok ())
    (Except.ok ("unregistered/alpn"))
    (Or.inr ⟨"unregistered/alpn", rfl, rfl⟩)).1

/-- C5: in the child-task completion branch, a panicking child breaks the
loop (and the loop having exited, the supervisor runs shutdown), while a
child that completed with an ordinary error is logged at debug level and the
loop keeps running: the remaining rounds are serviced exactly as without that
event. -/
theorem child_task_completion_policy (msg : String) (addPeerOk : Bool)
    (rest : List (SelectSources × Bool)) :
    (superviseStep ⟨false, none, none,
        some (JoinNextResult.joinFailed JoinError.panicked)⟩ addPeerOk).outcome
      = StepOutcome.breakLoop
    ∧ (superviseLoop [(⟨false, none, none,
        some (JoinNextResult.joinFailed JoinError.panicked)⟩, addPeerOk)]).2 = true
    ∧ (superviseStep ⟨false, none, none,
        some (JoinNextResult.taskReturnedErr msg)⟩ addPeerOk).outcome
      = StepOutcome.continueLoop
    ∧ (superviseStep ⟨false, none, none,
        some (JoinNextResult.taskReturnedErr msg)⟩ addPeerOk).logs
      = [⟨LogLevel.debug, "task errored"⟩]
    ∧ (superviseLoop ((⟨false, none, none,
        some (JoinNextResult.taskReturnedErr msg)⟩, addPeerOk) :: rest)).2
      = (superviseLoop rest).2 :=
  ⟨rfl, rfl, rfl, rfl, rfl⟩

/-- C6: `shutdown` cancels the supervisor cancellation token and awaits the
supervisor task before returning; it returns `Ok` exactly when the task
terminated without a join error, and surfaces a join error as the returned
error. -/
theorem shutdown_cancels_and_surfaces_join_error (taskJoin : Except String Unit)
    (e : String) :
    (networkShutdown taskJoin).1 = true
    ∧ ((networkShutdown taskJoin).2 = Except.ok () ↔ taskJoin = Except.ok ())
    ∧ (networkShutdown (Except.error e)).2 = Except.error e
    ∧ (networkShutdown (Except.ok ())).2 = Except.ok () := by
  refine ⟨rfl, ?_, rfl, rfl⟩
  cases taskJoin with
  | error a => simp [networkShutdown]
  | ok a => simp [networkShutdown]

/-- C7 counterexample: with the bind port configured as 65535, the IPv6 port
is not the IPv4 port plus one (the `u16` addition wraps to 0). -/
theorem ipv6_port_plus_one_cex :
    ¬ ((bindPorts 2022 (some 65535)).2 = (bindPorts 2022 (some 65535)).1 + 1) := by
  decide

/-- C7 (amended): `build` binds the IPv4 socket to the configured bind port
(or the default when none was set), and binds the IPv6 socket to that port
plus one computed in `u16`, that is modulo `2 ^ 16`; for every port below
65535 this is exactly the port plus one (at 65535 the addition wraps to 0,
or aborts under debug assertions). -/
theorem ipv6_port_wrapping (defaultBindPort : Nat) (bindPort : Option Nat)
    (h : bindPort.getD defaultBindPort < 65535) :
    (bindPorts defaultBindPort bindPort).1 = bindPort.getD defaultBindPort
    ∧ (bindPorts defaultBindPort bindPort).2
      = ((bindPorts defaultBindPort bindPort).1 + 1) % 65536
    ∧ (bindPorts defaultBindPort bindPort).2
      = (bindPorts defaultBindPort bindPort).1 + 1 := by
  refine ⟨rfl, rfl, ?_⟩
  show (bindPort.getD defaultBindPort + 1) % 65536 = bindPort.getD defaultBindPort + 1
  exact Nat.mod_eq_of_lt (by omega)

/-- C7 witness: with the bind port configured as 2024, the IPv6 port is 2025,
the IPv4 port plus one. -/
theorem ipv6_port_wrapping_witness :
    (bindPorts 2022 (some 2024)).2 = (bindPorts 2022 (some 2024)).1 + 1 :=
  (ipv6_port_wrapping 2022 (some 2024) (by decide)).2.2

/-- C8 counterexample: building without a sync configuration registers no
handler under the sync ALPN, and the ALPN list installed on the endpoint does
not contain the sync ALPN; so it is not the case that the sync ALPN is
registered at build time unconditionally. -/
theorem sync_alpn_not_registered_without_sync_cex :
    pmGet (registerCoreProtocols [] ⟨"gossip"⟩ none).protocols SYNC_CONNECTION_ALPN
      = none
    ∧ ¬ (SYNC_CONNECTION_ALPN ∈ (registerCoreProtocols [] ⟨"gossip"⟩ none).alpns) := by
  refine ⟨by decide, by decide⟩

/-- C8 (amended): at build time the gossip ALPN is registered with the
protocol map, and the sync ALPN is registered exactly when a sync protocol
was configured (the engine then provides a sync handler); both registrations
happen before the ALPN list is read off the map and installed on the
endpoint, so that list contains the gossip ALPN and, when sync is
configured, the sync ALPN, letting inbound gossip and sync connections be
dispatched. -/
theorem core_alpn_registration (userProtocols : ProtocolMap)
    (gossipHandler : ProtocolHandler) (syncConfig : Option SyncConfiguration) :
    pmGet (registerCoreProtocols userProtocols gossipHandler syncConfig).protocols
        GOSSIP_ALPN = some gossipHandler
    ∧ GOSSIP_ALPN ∈ (registerCoreProtocols userProtocols gossipHandler syncConfig).alpns
    ∧ ∀ cfg, syncConfig = some cfg →
        pmGet (registerCoreProtocols userProtocols gossipHandler syncConfig).protocols
            SYNC_CONNECTION_ALPN = some ⟨cfg.protocolName⟩
        ∧ SYNC_CONNECTION_ALPN ∈
            (registerCoreProtocols userProtocols gossipHandler syncConfig).alpns := by
  cases syncConfig with
  | none =>
    refine ⟨pmGet_insert_self userProtocols GOSSIP_ALPN gossipHandler,
      pmGet_mem_alpns GOSSIP_ALPN gossipHandler _
        (pmGet_insert_self userProtocols GOSSIP_ALPN gossipHandler), ?_⟩
    intro cfg hcfg
    exact absurd hcfg (by simp)
  | some cfg0 =>
    have hne : GOSSIP_ALPN ≠ SYNC_CONNECTION_ALPN := by decide
    have hg : pmGet (registerCoreProtocols userProtocols gossipHandler
        (some cfg0)).protocols GOSSIP_ALPN = some gossipHandler := by
      show pmGet (pmInsert (pmInsert userProtocols GOSSIP_ALPN gossipHandler)
        SYNC_CONNECTION_ALPN ⟨cfg0.protocolName⟩) GOSSIP_ALPN = some gossipHandler
      rw [pmGet_insert_ne _ _ _ _ hne]
      exact pmGet_insert_self userProtocols GOSSIP_ALPN gossipHandler
    have hs : pmGet (registerCoreProtocols userProtocols gossipHandler
        (some cfg0)).protocols SYNC_CONNECTION_ALPN = some ⟨cfg0.protocolName⟩ :=
      pmGet_insert_self (pmInsert userProtocols GOSSIP_ALPN gossipHandler)
        SYNC_CONNECTION_ALPN ⟨cfg0.protocolName⟩
    refine ⟨hg, pmGet_mem_alpns GOSSIP_ALPN gossipHandler _ hg, ?_⟩
    intro cfg hcfg
    have hc : cfg0 = cfg := by injection hcfg
    subst hc
    exact ⟨hs, pmGet_mem_alpns SYNC_CONNECTION_ALPN ⟨cfg0.protocolName⟩ _ hs⟩

/-- C9: for every topic, `subscribe` creates both application-facing channels
with a fixed bound of exactly 128: the `ToNetwork` sender and the
`FromNetwork` receiver returned to the caller, and the opposite halves handed
to the engine, are all backed by bounded channels of capacity 128. -/
theorem subscribe_channel_capacities {T : Type} (topic : T) :
    ((networkSubscribe topic).1.1.capacity = 128)
    ∧ ((networkSubscribe topic).1.2.capacity = 128)
    ∧ ((networkSubscribe topic).2.from_network_tx.capacity = 128)
    ∧ ((networkSubscribe topic).2.to_network_rx.capacity = 128) :=
  ⟨rfl, rfl, rfl, rfl⟩

/-- C10: when the endpoint wait succeeded and every `add_peer` call succeeds,
`build` adds exactly the configured direct node addresses to the engine, in
order; an address without relay information receives the relay url of the
configured relay node, when there is one, while an address that already
carries a relay url is passed to `add_peer` unchanged. -/
theorem direct_addresses_added_with_relay_fallback (das : List SocketAddr)
    (relay : Option RelayUrl) (addrs : List NodeAddr)
    (addPeer : NodeAddr → Except String Unit)
    (h : ∀ a, addPeer a = Except.ok ()) :
    (buildFinish (some (some das)) relay addrs addPeer).result
      = Except.ok (addrs.map (withRelayIfMissing relay))
    ∧ (∀ a u, a.relay_url = none → relay = some u →
        withRelayIfMissing relay a = { a with relay_url := some u })
    ∧ (∀ a u, a.relay_url = some u → withRelayIfMissing relay a = a) := by
  refine ⟨?_, ?_, ?_⟩
  · show addDirectPeers addPeer relay addrs
      = Except.ok (addrs.map (withRelayIfMissing relay))
    exact addDirectPeers_ok addPeer relay h addrs
  · intro a u ha hr
    simp [withRelayIfMissing, ha, hr]
  · intro a u ha
    simp [withRelayIfMissing, ha]

/-- C10 witness: one configured direct address without relay information,
with an own relay configured, is added with the own relay url attached. -/
theorem direct_addresses_added_with_relay_fallback_witness :
    (buildFinish (some (some [])) (some ⟨"wss://relay.example"⟩)
        [⟨⟨[7]⟩, [], none⟩] (fun _ => Except.ok ())).result
      = Except.ok [⟨⟨[7]⟩, [], some ⟨"wss://relay.example"⟩⟩] :=
  (direct_addresses_added_with_relay_fallback [] (some ⟨"wss://relay.example"⟩)
    [⟨⟨[7]⟩, [], none⟩] (fun _ => Except.ok ()) (fun _ => rfl)).1

end P2PandaNet
